import Mathlib

/-
A verification development for `mthread.h`, a small C++ header that runs
POSIX threads on member functions.

Modelling conventions (a shallow embedding of the header):

* Pointer types are modelled as abstract value spaces with an explicit NULL:
  a C++ `T *` is `Option τ` where `τ` is the space of non-null `T`-pointer
  values, a `void *` argument payload is `Option α`, and member-function
  pointers are `Option` of a semantic function type.  Lean equality of these
  values is pointer identity.
* A member function `R (T::*)()` is modelled by its observable behaviour: a
  function from the owner pointer value and an external world `W` (the state
  of all referents: the owner object, the argument payload, anything else) to
  `Except ε (ρ × W)` — it may update the world and return an `R`, or raise a
  fault `ε` (the analogue of an unhandled C++ exception).  `R (T::*)(void *)`
  additionally receives the `void *` argument pointer value.
* The mthread objects created with `new` and released with `delete` live in
  an explicit allocation heap `MHeap`: a bump allocator (`next`) plus a
  partial map from addresses to live `mthread` objects.  `new` places the
  freshly constructed object at address `next`; `delete` first runs the
  destructor on the stored object and then removes the address.
* The external collaborator `pthread_create` (declared in `pthread.h`, not
  part of this repository) is modelled per its contract as an arbitrary
  function from its arguments — the `pthread_t *` handle out-pointer, the
  `const pthread_attr_t *` pointer, the start-routine function pointer
  (one of the two trampolines, identified by a `StartRoutine` tag), and the
  opaque payload address — to an `Int` status code.  The contents written
  through the handle pointer are unspecified by the contract and are not
  modelled.
* Undefined behaviour that the trampolines could exhibit (casting a pointer
  that is not a live mthread object, calling through a NULL member-function
  pointer) is made explicit as `Fault.invalidContext` / `Fault.nullMemberCall`;
  a fault raised by the invoked member function itself propagates as
  `Fault.thrown`.
-/

namespace MThreadModel

/-- Behaviour of a no-argument member function `R (T::*)()`: from the owner
pointer value (`Option τ`, `none` being NULL) and the referent world, either
a result and an updated world, or a raised fault. -/
def NoArgProc (τ ρ ε W : Type) : Type :=
  Option τ → W → Except ε (ρ × W)

/-- Behaviour of a single-argument member function `R (T::*)(void *)`: as
`NoArgProc`, but also receiving the `void *` argument pointer value. -/
def ArgProc (τ α ρ ε W : Type) : Type :=
  Option τ → Option α → W → Except ε (ρ × W)

/-- The `mthread<T, R>` object (the CallContext): `mp_ref` is the owner
pointer `T *`, `mp_arg` the argument pointer `void *`, and `mf_no_arg` /
`mf_arg` the two member-function pointer fields, each possibly NULL. -/
structure mthread (τ α ρ ε W : Type) where
  mp_ref : Option τ
  mp_arg : Option α
  mf_no_arg : Option (NoArgProc τ ρ ε W)
  mf_arg : Option (ArgProc τ α ρ ε W)

/-- The constructor `mthread(T *p_ref, R (T::*f_func)())`: stores the owner,
NULLs `mf_arg`, stores `f_func` in `mf_no_arg`, NULLs `mp_arg`. -/
def mthread.ctor_no_arg {τ α ρ ε W : Type}
    (p_ref : Option τ) (f_func : Option (NoArgProc τ ρ ε W)) :
    mthread τ α ρ ε W :=
  { mp_ref := p_ref
    mf_arg := none
    mf_no_arg := f_func
    mp_arg := none }

/-- The constructor `mthread(T *p_ref, R (T::*f_func)(void *), void *p_arg)`:
stores the owner, stores `f_func` in `mf_arg`, NULLs `mf_no_arg`, stores the
argument pointer. -/
def mthread.ctor_arg {τ α ρ ε W : Type}
    (p_ref : Option τ) (f_func : Option (ArgProc τ α ρ ε W))
    (p_arg : Option α) : mthread τ α ρ ε W :=
  { mp_ref := p_ref
    mf_arg := f_func
    mf_no_arg := none
    mp_arg := p_arg }

/-- The destructor `~mthread()`: sets the reference and argument pointers to
NULL; deallocates nothing.  It acts on the `mthread` record alone — it takes
no referent world `W`, so by its very type it cannot destroy or alter the
owner object or the argument payload. -/
def mthread.dtor {τ α ρ ε W : Type} (w : mthread τ α ρ ε W) :
    mthread τ α ρ ε W :=
  { w with mp_ref := none, mp_arg := none }

/-- The allocation heap holding the `new`-allocated mthread objects: a bump
pointer `next` and the partial map of live objects. -/
structure MHeap (τ α ρ ε W : Type) where
  next : Nat
  mem : Nat → Option (mthread τ α ρ ε W)

/-- Heap well-formedness: no live object at or beyond the bump pointer. -/
def MHeap.WF {τ α ρ ε W : Type} (h : MHeap τ α ρ ε W) : Prop :=
  ∀ a : Nat, h.next ≤ a → h.mem a = none

/-- `new mthread(...)`: place the constructed object at the fresh address
`next` and advance the bump pointer.  Returns the address and the new heap. -/
def MHeap.alloc {τ α ρ ε W : Type} (h : MHeap τ α ρ ε W)
    (w : mthread τ α ρ ε W) : Nat × MHeap τ α ρ ε W :=
  (h.next,
   { next := h.next + 1
     mem := fun n => if n = h.next then some w else h.mem n })

/-- In-place effect of running `~mthread()` on the object at address `a`
(the first half of `delete`). -/
def MHeap.destroyAt {τ α ρ ε W : Type} (h : MHeap τ α ρ ε W) (a : Nat) :
    MHeap τ α ρ ε W :=
  { h with mem := fun n => if n = a then (h.mem n).map mthread.dtor else h.mem n }

/-- Release of the storage at address `a` (the second half of `delete`). -/
def MHeap.release {τ α ρ ε W : Type} (h : MHeap τ α ρ ε W) (a : Nat) :
    MHeap τ α ρ ε W :=
  { h with mem := fun n => if n = a then none else h.mem n }

/-- `delete p_wrap` for `p_wrap` at address `a`: run the destructor on the
stored object, then release its storage. -/
def MHeap.deleteObj {τ α ρ ε W : Type} (h : MHeap τ α ρ ε W) (a : Nat) :
    MHeap τ α ρ ε W :=
  (h.destroyAt a).release a

/-- Faults a trampoline run can produce.  `invalidContext` is the undefined
behaviour of casting a pointer that is not a live mthread object;
`nullMemberCall` is the undefined behaviour of calling through a NULL
member-function pointer; `thrown e` is a fault raised by the invoked member
function itself, which the trampoline does not catch. -/
inductive Fault (ε : Type) where
  | invalidContext : Fault ε
  | nullMemberCall : Fault ε
  | thrown : ε → Fault ε
  deriving DecidableEq

/-- `mthread::func_args(void *p_arg)`: cast `p_arg` to the mthread object,
invoke `(p_wrap->mp_ref->*p_wrap->mf_arg)(p_wrap->mp_arg)`, `delete p_wrap`,
and return 0 (the NULL `void *`, here `none`).  The run yields the updated
heap, the updated referent world, and the returned `void *`. -/
def mthread.func_args {τ α ρ ε W : Type} (h : MHeap τ α ρ ε W) (w0 : W)
    (p_arg : Nat) : Except (Fault ε) (MHeap τ α ρ ε W × W × Option α) :=
  match h.mem p_arg with
  | none => .error .invalidContext
  | some p_wrap =>
    match p_wrap.mf_arg with
    | none => .error .nullMemberCall
    | some f =>
      match f p_wrap.mp_ref p_wrap.mp_arg w0 with
      | .error e => .error (.thrown e)
      | .ok (_, w1) => .ok (h.deleteObj p_arg, w1, none)

/-- `mthread::func_no_args(void *p_arg)`: cast `p_arg` to the mthread object,
invoke `(p_wrap->mp_ref->*p_wrap->mf_no_arg)()`, `delete p_wrap`, and return
0 (the NULL `void *`). -/
def mthread.func_no_args {τ α ρ ε W : Type} (h : MHeap τ α ρ ε W) (w0 : W)
    (p_arg : Nat) : Except (Fault ε) (MHeap τ α ρ ε W × W × Option α) :=
  match h.mem p_arg with
  | none => .error .invalidContext
  | some p_wrap =>
    match p_wrap.mf_no_arg with
    | none => .error .nullMemberCall
    | some f =>
      match f p_wrap.mp_ref w0 with
      | .error e => .error (.thrown e)
      | .ok (_, w1) => .ok (h.deleteObj p_arg, w1, none)

/-- Identifies which of the two trampoline function pointers is handed to
`pthread_create` as the start routine. -/
inductive StartRoutine where
  | func_no_args : StartRoutine
  | func_args : StartRoutine
  deriving DecidableEq

/-- The observable behaviour of the external `pthread_create` primitive
(declared in `pthread.h`, outside this repository), per its contract: from
the `pthread_t *` out-pointer value, the `const pthread_attr_t *` pointer
value, the start-routine function pointer and the opaque payload address, an
`Int` status code — 0 on success, an error number otherwise. -/
def PthreadCreate : Type :=
  Nat → Nat → StartRoutine → Nat → Int

/-- `mthread<T, R>::create(pthread_t *, const pthread_attr_t *, T *,
R (T::*)())`: allocate `new mthread(p_ref, f_start_routine)` and return the
result of `pthread_create` on the `func_no_args` trampoline and that
allocation, together with the heap after the allocation. -/
def mthread.create_no_arg {τ α ρ ε W : Type} (pc : PthreadCreate)
    (h : MHeap τ α ρ ε W) (p_thread : Nat) (p_attr : Nat)
    (p_ref : Option τ) (f_start_routine : Option (NoArgProc τ ρ ε W)) :
    Int × MHeap τ α ρ ε W :=
  let al := h.alloc (mthread.ctor_no_arg p_ref f_start_routine)
  (pc p_thread p_attr .func_no_args al.1, al.2)

/-- `mthread<T, R>::create(pthread_t *, const pthread_attr_t *, T *,
R (T::*)(void *), void *)`: allocate
`new mthread(p_ref, f_start_routine, p_arg)` and return the result of
`pthread_create` on the `func_args` trampoline and that allocation, together
with the heap after the allocation. -/
def mthread.create_arg {τ α ρ ε W : Type} (pc : PthreadCreate)
    (h : MHeap τ α ρ ε W) (p_thread : Nat) (p_attr : Nat)
    (p_ref : Option τ) (f_start_routine : Option (ArgProc τ α ρ ε W))
    (p_arg : Option α) : Int × MHeap τ α ρ ε W :=
  let al := h.alloc (mthread.ctor_arg p_ref f_start_routine p_arg)
  (pc p_thread p_attr .func_args al.1, al.2)

/-- The free-function wrapper
`mthread_create(pthread_t *, const pthread_attr_t *, T *, R (T::*)())`:
forwards to `mthread<T, R>::create`. -/
def mthread_create_no_arg {τ α ρ ε W : Type} (pc : PthreadCreate)
    (h : MHeap τ α ρ ε W) (p_thread : Nat) (p_attr : Nat)
    (p_ref : Option τ) (f_start_routine : Option (NoArgProc τ ρ ε W)) :
    Int × MHeap τ α ρ ε W :=
  mthread.create_no_arg pc h p_thread p_attr p_ref f_start_routine

/-- The free-function wrapper `mthread_create(pthread_t *,
const pthread_attr_t *, T *, R (T::*)(void *), void *)`: forwards to
`mthread<T, R>::create`. -/
def mthread_create_arg {τ α ρ ε W : Type} (pc : PthreadCreate)
    (h : MHeap τ α ρ ε W) (p_thread : Nat) (p_attr : Nat)
    (p_ref : Option τ) (f_start_routine : Option (ArgProc τ α ρ ε W))
    (p_arg : Option α) : Int × MHeap τ α ρ ε W :=
  mthread.create_arg pc h p_thread p_attr p_ref f_start_routine p_arg

end MThreadModel

namespace MThreadModel

/-! Concrete sample instances, used by the witness theorems to evaluate the
model at specific inputs.  Owners and argument payloads are pointer spaces
`Nat`, procedure results are `Unit`, procedure faults are `Unit`, and the
referent world is a `Nat` counter. -/

/-- The empty allocation heap. -/
def emptyHeap : MHeap Nat Nat Unit Unit Nat :=
  { next := 0, mem := fun _ => none }

/-- A `pthread_create` behaviour that always succeeds with status 0. -/
def okPC : PthreadCreate := fun _ _ _ _ => 0

/-- A `pthread_create` behaviour that always fails with status 11 (EAGAIN). -/
def againPC : PthreadCreate := fun _ _ _ _ => 11

/-- A sample no-argument member procedure: bumps the world counter by 1. -/
def sampleNoArgProc : NoArgProc Nat Unit Unit Nat :=
  fun _ w => .ok ((), w + 1)

/-- A sample single-argument member procedure: bumps the world counter by 2. -/
def sampleArgProc : ArgProc Nat Nat Unit Unit Nat :=
  fun _ _ w => .ok ((), w + 2)

/-- A sample no-argument member procedure that raises a fault. -/
def faultyNoArgProc : NoArgProc Nat Unit Unit Nat :=
  fun _ _ => .error ()

/-- A sample single-argument member procedure that raises a fault. -/
def faultyArgProc : ArgProc Nat Nat Unit Unit Nat :=
  fun _ _ _ => .error ()

/-- A sample heap with a single-argument context at address 0 and a
no-argument context at address 1. -/
def twoCtxHeap : MHeap Nat Nat Unit Unit Nat :=
  { next := 2
    mem := fun n =>
      if n = 0 then some (mthread.ctor_arg (some 5) (some sampleArgProc) (some 7))
      else if n = 1 then some (mthread.ctor_no_arg (some 6) (some sampleNoArgProc))
      else none }

end MThreadModel

namespace MThreadModel

/-- Claim C3: after either CallContext constructor runs, exactly one of the
two procedure-pointer fields (`mf_no_arg`, `mf_arg`) is set and the other is
NULL; no constructed CallContext ever has both set, whatever raw
member-function pointer was passed; and each launch operation stores in the
heap exactly the context built by its constructor, so the invariant holds for
every CallContext a launch produces. -/
theorem C3_exactly_one_procedure_field {τ α ρ ε W : Type} (p : Option τ)
    (f : NoArgProc τ ρ ε W) (g : ArgProc τ α ρ ε W) (v : Option α)
    (fo : Option (NoArgProc τ ρ ε W)) (go : Option (ArgProc τ α ρ ε W))
    (pc : PthreadCreate) (h : MHeap τ α ρ ε W) (p_thread p_attr : Nat) :
    ((mthread.ctor_no_arg (α := α) p (some f)).mf_no_arg = some f
      ∧ (mthread.ctor_no_arg (α := α) p (some f)).mf_arg = none)
    ∧ ((mthread.ctor_arg p (some g) v).mf_arg = some g
      ∧ (mthread.ctor_arg p (some g) v).mf_no_arg = none)
    ∧ (mthread.ctor_no_arg (α := α) p fo).mf_arg = none
    ∧ (mthread.ctor_arg p go v).mf_no_arg = none
    ∧ (mthread.create_no_arg pc h p_thread p_attr p fo).2.mem h.next
        = some (mthread.ctor_no_arg p fo)
    ∧ (mthread.create_arg pc h p_thread p_attr p go v).2.mem h.next
        = some (mthread.ctor_arg p go v) := by
  refine ⟨⟨rfl, rfl⟩, ⟨rfl, rfl⟩, rfl, rfl, ?_, ?_⟩ <;>
    simp [mthread.create_no_arg, mthread.create_arg, MHeap.alloc]

/-- Claim C5: each launch operation returns to its caller exactly the status
code produced by the native `pthread_create` primitive on the corresponding
trampoline and payload, for every possible behaviour `pc` of the primitive —
nothing is added or translated by this layer. -/
theorem C5_status_passthrough {τ α ρ ε W : Type} (pc : PthreadCreate)
    (h : MHeap τ α ρ ε W) (p_thread p_attr : Nat) (p : Option τ)
    (fo : Option (NoArgProc τ ρ ε W)) (go : Option (ArgProc τ α ρ ε W))
    (v : Option α) :
    (mthread.create_no_arg pc h p_thread p_attr p fo).1
      = pc p_thread p_attr .func_no_args h.next
    ∧ (mthread.create_arg pc h p_thread p_attr p go v).1
      = pc p_thread p_attr .func_args h.next :=
  ⟨rfl, rfl⟩

/-- Claim C10: the free-function wrappers `mthread_create` return exactly the
same result (status code and heap effect) as the corresponding static
`mthread<T, R>::create` overloads at the same arguments. -/
theorem C10_wrapper_equivalence {τ α ρ ε W : Type} (pc : PthreadCreate)
    (h : MHeap τ α ρ ε W) (p_thread p_attr : Nat) (p : Option τ)
    (fo : Option (NoArgProc τ ρ ε W)) (go : Option (ArgProc τ α ρ ε W))
    (v : Option α) :
    mthread_create_no_arg pc h p_thread p_attr p fo
      = mthread.create_no_arg pc h p_thread p_attr p fo
    ∧ mthread_create_arg pc h p_thread p_attr p go v
      = mthread.create_arg pc h p_thread p_attr p go v :=
  ⟨rfl, rfl⟩

end MThreadModel

namespace MThreadModel

/-- Claim C1: for every owner pointer `p`, single-argument member procedure
`f`, and argument pointer `v` given to the single-argument launch, running
`func_args` on the CallContext that launch allocated invokes exactly `f` on
exactly `p` with exactly `v` (the very same pointer value `v`, threading the
world through that one call), then deletes the context (its address is no
longer live) and returns the NULL `void *` result. -/
theorem C1_func_args_dispatch {τ α ρ ε W : Type} (pc : PthreadCreate)
    (h : MHeap τ α ρ ε W) (p_thread p_attr : Nat) (p : Option τ)
    (f : ArgProc τ α ρ ε W) (v : Option α) (w0 w1 : W) (r : ρ)
    (hf : f p v w0 = .ok (r, w1)) :
    mthread.func_args (mthread.create_arg pc h p_thread p_attr p (some f) v).2
        w0 h.next
      = .ok ((mthread.create_arg pc h p_thread p_attr p (some f) v).2.deleteObj
          h.next, w1, none)
    ∧ ((mthread.create_arg pc h p_thread p_attr p (some f) v).2.deleteObj
        h.next).mem h.next = none := by
  constructor
  · simp [mthread.create_arg, MHeap.alloc, mthread.func_args,
      mthread.ctor_arg, hf]
  · simp [MHeap.deleteObj, MHeap.release]

/-- Claim C2: for every owner pointer `p` and no-argument member procedure
`f` given to the no-argument launch, running `func_no_args` on the
CallContext that launch allocated reinterprets the payload address as that
context, invokes exactly `f` on exactly `p`, deletes the context (its
address is no longer live) and returns the NULL `void *` result. -/
theorem C2_func_no_args_dispatch {τ α ρ ε W : Type} (pc : PthreadCreate)
    (h : MHeap τ α ρ ε W) (p_thread p_attr : Nat) (p : Option τ)
    (f : NoArgProc τ ρ ε W) (w0 w1 : W) (r : ρ)
    (hf : f p w0 = .ok (r, w1)) :
    mthread.func_no_args
        (mthread.create_no_arg (α := α) pc h p_thread p_attr p (some f)).2
        w0 h.next
      = .ok ((mthread.create_no_arg (α := α) pc h p_thread p_attr p
          (some f)).2.deleteObj h.next, w1, none)
    ∧ ((mthread.create_no_arg (α := α) pc h p_thread p_attr p
        (some f)).2.deleteObj h.next).mem h.next = none := by
  constructor
  · simp [mthread.create_no_arg, MHeap.alloc, mthread.func_no_args,
      mthread.ctor_no_arg, hf]
  · simp [MHeap.deleteObj, MHeap.release]

end MThreadModel

namespace MThreadModel

/-- Claim C4: on a well-formed heap each launch allocates exactly one fresh
CallContext — the address was not live before, afterwards it holds exactly
the context built by the matching constructor, every other address is
untouched, the bump pointer advances by one and well-formedness is preserved
(so no later launch can ever reuse this context) — and the native primitive
is invoked with the trampoline matching the launch's arity on that very
allocation. -/
theorem C4_fresh_context_matching_trampoline {τ α ρ ε W : Type}
    (pc : PthreadCreate) (h : MHeap τ α ρ ε W) (p_thread p_attr : Nat)
    (p : Option τ) (fo : Option (NoArgProc τ ρ ε W))
    (go : Option (ArgProc τ α ρ ε W)) (v : Option α) (hwf : h.WF) :
    h.mem h.next = none
    ∧ (mthread.create_no_arg pc h p_thread p_attr p fo).2.mem h.next
        = some (mthread.ctor_no_arg p fo)
    ∧ (∀ b, b ≠ h.next →
        (mthread.create_no_arg pc h p_thread p_attr p fo).2.mem b = h.mem b)
    ∧ (mthread.create_no_arg pc h p_thread p_attr p fo).1
        = pc p_thread p_attr .func_no_args h.next
    ∧ (mthread.create_no_arg pc h p_thread p_attr p fo).2.next = h.next + 1
    ∧ (mthread.create_no_arg pc h p_thread p_attr p fo).2.WF
    ∧ (mthread.create_arg pc h p_thread p_attr p go v).2.mem h.next
        = some (mthread.ctor_arg p go v)
    ∧ (∀ b, b ≠ h.next →
        (mthread.create_arg pc h p_thread p_attr p go v).2.mem b = h.mem b)
    ∧ (mthread.create_arg pc h p_thread p_attr p go v).1
        = pc p_thread p_attr .func_args h.next
    ∧ (mthread.create_arg pc h p_thread p_attr p go v).2.next = h.next + 1
    ∧ (mthread.create_arg pc h p_thread p_attr p go v).2.WF := by
  refine ⟨hwf h.next le_rfl, ?_, ?_, rfl, rfl, ?_, ?_, ?_, rfl, rfl, ?_⟩
  · simp [mthread.create_no_arg, MHeap.alloc]
  · intro b hb
    simp [mthread.create_no_arg, MHeap.alloc, hb]
  · intro a ha
    simp only [mthread.create_no_arg, MHeap.alloc] at ha ⊢
    rw [if_neg (by omega)]
    exact hwf a (by omega)
  · simp [mthread.create_arg, MHeap.alloc]
  · intro b hb
    simp [mthread.create_arg, MHeap.alloc, hb]
  · intro a ha
    simp only [mthread.create_arg, MHeap.alloc] at ha ⊢
    rw [if_neg (by omega)]
    exact hwf a (by omega)

/-- Claim C6: when the native primitive's status for a launch is a nonzero
code, the launch returns that nonzero code unchanged and the CallContext it
allocated is still live in the heap afterwards — this layer never frees it
on the failure path. -/
theorem C6_context_not_freed_on_failure {τ α ρ ε W : Type}
    (pc : PthreadCreate) (h : MHeap τ α ρ ε W) (p_thread p_attr : Nat)
    (p : Option τ) (fo : Option (NoArgProc τ ρ ε W))
    (go : Option (ArgProc τ α ρ ε W)) (v : Option α) (s t : Int)
    (hs : pc p_thread p_attr .func_no_args h.next = s) (hs0 : s ≠ 0)
    (ht : pc p_thread p_attr .func_args h.next = t) (ht0 : t ≠ 0) :
    ((mthread.create_no_arg pc h p_thread p_attr p fo).1 = s
      ∧ (mthread.create_no_arg pc h p_thread p_attr p fo).1 ≠ 0
      ∧ (mthread.create_no_arg pc h p_thread p_attr p fo).2.mem h.next
          = some (mthread.ctor_no_arg p fo))
    ∧ ((mthread.create_arg pc h p_thread p_attr p go v).1 = t
      ∧ (mthread.create_arg pc h p_thread p_attr p go v).1 ≠ 0
      ∧ (mthread.create_arg pc h p_thread p_attr p go v).2.mem h.next
          = some (mthread.ctor_arg p go v)) := by
  refine ⟨⟨hs, ?_, ?_⟩, ⟨ht, ?_, ?_⟩⟩
  · simpa [mthread.create_no_arg, MHeap.alloc, hs] using hs0
  · simp [mthread.create_no_arg, MHeap.alloc]
  · simpa [mthread.create_arg, MHeap.alloc, ht] using ht0
  · simp [mthread.create_arg, MHeap.alloc]

/-- Claim C7: the destructor sets the owner and argument pointer fields to
NULL while leaving the procedure-pointer fields as they were, and it cannot
destroy or deallocate the referents: it takes no referent world at all, and
`delete` of a context changes no heap address other than the context's own. -/
theorem C7_dtor_clears_references_only {τ α ρ ε W : Type}
    (w : mthread τ α ρ ε W) (h : MHeap τ α ρ ε W) (a b : Nat) (hb : b ≠ a) :
    (mthread.dtor w).mp_ref = none
    ∧ (mthread.dtor w).mp_arg = none
    ∧ (mthread.dtor w).mf_no_arg = w.mf_no_arg
    ∧ (mthread.dtor w).mf_arg = w.mf_arg
    ∧ (h.deleteObj a).mem b = h.mem b := by
  refine ⟨rfl, rfl, rfl, rfl, ?_⟩
  simp [MHeap.deleteObj, MHeap.release, MHeap.destroyAt, hb]

end MThreadModel

namespace MThreadModel

/-- Claim C8: neither trampoline catches a fault raised by the invoked
member procedure: on a live context whose relevant member-function pointer
is set, the trampoline's run is the fault `e` exactly when the procedure's
run at the stored owner (and argument) is the fault `e`, and a successful
procedure run yields the trampoline's normal delete-and-return-NULL result —
a fault is never swallowed or converted into a normal return. -/
theorem C8_trampolines_propagate_faults {τ α ρ ε W : Type}
    (h : MHeap τ α ρ ε W) (a b : Nat) (wa wb : mthread τ α ρ ε W)
    (f : ArgProc τ α ρ ε W) (g : NoArgProc τ ρ ε W) (w0 : W)
    (ha : h.mem a = some wa) (hfa : wa.mf_arg = some f)
    (hb : h.mem b = some wb) (hgb : wb.mf_no_arg = some g) :
    (∀ e, mthread.func_args h w0 a = .error (.thrown e)
        ↔ f wa.mp_ref wa.mp_arg w0 = .error e)
    ∧ (∀ r w1, f wa.mp_ref wa.mp_arg w0 = .ok (r, w1)
        → mthread.func_args h w0 a = .ok (h.deleteObj a, w1, none))
    ∧ (∀ e, mthread.func_no_args h w0 b = .error (.thrown e)
        ↔ g wb.mp_ref w0 = .error e)
    ∧ (∀ r w1, g wb.mp_ref w0 = .ok (r, w1)
        → mthread.func_no_args h w0 b = .ok (h.deleteObj b, w1, none)) := by
  refine ⟨?_, ?_, ?_, ?_⟩
  · intro e
    simp only [mthread.func_args, ha, hfa]
    cases hres : f wa.mp_ref wa.mp_arg w0 with
    | error e2 => simp
    | ok rw1 => simp
  · intro r w1 hres
    simp [mthread.func_args, ha, hfa, hres]
  · intro e
    simp only [mthread.func_no_args, hb, hgb]
    cases hres : g wb.mp_ref w0 with
    | error e2 => simp
    | ok rw1 => simp
  · intro r w1 hres
    simp [mthread.func_no_args, hb, hgb, hres]

/-- Helper: a `func_no_args` run faults with `nullMemberCall` when the live
context's `mf_no_arg` field is NULL. -/
theorem func_no_args_null_case {τ α ρ ε W : Type} (h : MHeap τ α ρ ε W)
    (w0 : W) (a : Nat) (cw : mthread τ α ρ ε W) (ha : h.mem a = some cw)
    (hg : cw.mf_no_arg = none) :
    mthread.func_no_args h w0 a = .error .nullMemberCall := by
  simp [mthread.func_no_args, ha, hg]

/-- Helper: a `func_no_args` run propagates the stored procedure's fault. -/
theorem func_no_args_error_case {τ α ρ ε W : Type} (h : MHeap τ α ρ ε W)
    (w0 : W) (a : Nat) (cw : mthread τ α ρ ε W) (g : NoArgProc τ ρ ε W)
    (e : ε) (ha : h.mem a = some cw) (hg : cw.mf_no_arg = some g)
    (hres : g cw.mp_ref w0 = .error e) :
    mthread.func_no_args h w0 a = .error (.thrown e) := by
  simp [mthread.func_no_args, ha, hg, hres]

/-- Helper: a `func_no_args` run deletes the context and returns NULL when
the stored procedure completes. -/
theorem func_no_args_ok_case {τ α ρ ε W : Type} (h : MHeap τ α ρ ε W)
    (w0 : W) (a : Nat) (cw : mthread τ α ρ ε W) (g : NoArgProc τ ρ ε W)
    (r : ρ) (w1 : W) (ha : h.mem a = some cw) (hg : cw.mf_no_arg = some g)
    (hres : g cw.mp_ref w0 = .ok (r, w1)) :
    mthread.func_no_args h w0 a = .ok (h.deleteObj a, w1, none) := by
  simp [mthread.func_no_args, ha, hg, hres]

/-- Helper: deleting the cell at `a` erases whatever object was stored
there, so the deleted heap does not depend on that object. -/
theorem deleteObj_overwrite {τ α ρ ε W : Type} (h : MHeap τ α ρ ε W)
    (a : Nat) (u u' : mthread τ α ρ ε W) :
    MHeap.deleteObj
        { h with mem := fun n => if n = a then some u else h.mem n } a
      = MHeap.deleteObj
        { h with mem := fun n => if n = a then some u' else h.mem n } a := by
  simp only [MHeap.deleteObj, MHeap.destroyAt, MHeap.release]
  congr 1
  funext n
  by_cases hn : n = a <;> simp [hn]

/-- Claim C9: on the no-argument path the constructor sets the argument
field to NULL, and `func_no_args` never reads it: its entire outcome is
unchanged when the context's `mp_arg` field is replaced by any other value
(and the no-argument procedure's type takes no argument at all, so the field
can never be passed to it). -/
theorem C9_no_arg_path_ignores_argument {τ α ρ ε W : Type} (p : Option τ)
    (fo : Option (NoArgProc τ ρ ε W)) (h : MHeap τ α ρ ε W) (a : Nat)
    (w : mthread τ α ρ ε W) (x y : Option α) (w0 : W) :
    (mthread.ctor_no_arg (α := α) p fo).mp_arg = none
    ∧ mthread.func_no_args
        { h with mem := fun n =>
            if n = a then some { w with mp_arg := x } else h.mem n } w0 a
      = mthread.func_no_args
        { h with mem := fun n =>
            if n = a then some { w with mp_arg := y } else h.mem n } w0 a := by
  refine ⟨rfl, ?_⟩
  obtain ⟨wr, wa, wn, wf⟩ := w
  cases hg : wn with
  | none =>
    exact (func_no_args_null_case _ w0 a ⟨wr, x, none, wf⟩ (by simp) rfl).trans
      (func_no_args_null_case _ w0 a ⟨wr, y, none, wf⟩ (by simp) rfl).symm
  | some g =>
    cases hres : g wr w0 with
    | error e =>
      exact (func_no_args_error_case _ w0 a ⟨wr, x, some g, wf⟩ g e
          (by simp) rfl hres).trans
        (func_no_args_error_case _ w0 a ⟨wr, y, some g, wf⟩ g e
          (by simp) rfl hres).symm
    | ok rw1 =>
      obtain ⟨r, w1⟩ := rw1
      refine (func_no_args_ok_case _ w0 a ⟨wr, x, some g, wf⟩ g r w1
          (by simp) rfl hres).trans
        (Eq.trans ?_ (func_no_args_ok_case _ w0 a ⟨wr, y, some g, wf⟩ g r w1
          (by simp) rfl hres).symm)
      exact congrArg (fun hh => Except.ok (hh, w1, none))
        (deleteObj_overwrite h a ⟨wr, x, some g, wf⟩ ⟨wr, y, some g, wf⟩)

end MThreadModel

namespace MThreadModel

/-- Witness for C1: concrete single-argument launch and dispatch, owner
pointer 5, argument pointer 7, procedure `sampleArgProc`. -/
theorem C1_func_args_dispatch_witness :
    sampleArgProc (some 5) (some 7) 0 = .ok ((), 2)
    ∧ (mthread.func_args
        (mthread.create_arg okPC emptyHeap 3 4 (some 5) (some sampleArgProc)
          (some 7)).2 0 emptyHeap.next
      = .ok ((mthread.create_arg okPC emptyHeap 3 4 (some 5)
          (some sampleArgProc) (some 7)).2.deleteObj emptyHeap.next, 2, none)
      ∧ ((mthread.create_arg okPC emptyHeap 3 4 (some 5)
          (some sampleArgProc) (some 7)).2.deleteObj emptyHeap.next).mem
          emptyHeap.next = none) :=
  ⟨rfl, C1_func_args_dispatch okPC emptyHeap 3 4 (some 5) sampleArgProc
    (some 7) 0 2 () rfl⟩

/-- Witness for C2: concrete no-argument launch and dispatch, owner pointer
5, procedure `sampleNoArgProc`. -/
theorem C2_func_no_args_dispatch_witness :
    sampleNoArgProc (some 5) 0 = .ok ((), 1)
    ∧ (mthread.func_no_args
        (mthread.create_no_arg okPC emptyHeap 3 4 (some 5)
          (some sampleNoArgProc)).2 0 emptyHeap.next
      = .ok ((mthread.create_no_arg okPC emptyHeap 3 4 (some 5)
          (some sampleNoArgProc)).2.deleteObj emptyHeap.next, 1, none)
      ∧ ((mthread.create_no_arg okPC emptyHeap 3 4 (some 5)
          (some sampleNoArgProc)).2.deleteObj emptyHeap.next).mem
          emptyHeap.next = none) :=
  ⟨rfl, C2_func_no_args_dispatch okPC emptyHeap 3 4 (some 5) sampleNoArgProc
    0 1 () rfl⟩

/-- Witness for C4: concrete launches from the empty heap, with the
untouched-address conjuncts instantiated at address 42. -/
theorem C4_fresh_context_matching_trampoline_witness :
    emptyHeap.WF
    ∧ emptyHeap.mem emptyHeap.next = none
    ∧ (mthread.create_no_arg okPC emptyHeap 3 4 (some 5)
        (some sampleNoArgProc)).2.mem emptyHeap.next
        = some (mthread.ctor_no_arg (some 5) (some sampleNoArgProc))
    ∧ (mthread.create_no_arg okPC emptyHeap 3 4 (some 5)
        (some sampleNoArgProc)).2.mem 42 = emptyHeap.mem 42
    ∧ (mthread.create_no_arg okPC emptyHeap 3 4 (some 5)
        (some sampleNoArgProc)).1 = okPC 3 4 .func_no_args emptyHeap.next
    ∧ (mthread.create_no_arg okPC emptyHeap 3 4 (some 5)
        (some sampleNoArgProc)).2.next = emptyHeap.next + 1
    ∧ (mthread.create_no_arg okPC emptyHeap 3 4 (some 5)
        (some sampleNoArgProc)).2.WF
    ∧ (mthread.create_arg okPC emptyHeap 3 4 (some 5) (some sampleArgProc)
        (some 7)).2.mem emptyHeap.next
        = some (mthread.ctor_arg (some 5) (some sampleArgProc) (some 7))
    ∧ (mthread.create_arg okPC emptyHeap 3 4 (some 5) (some sampleArgProc)
        (some 7)).2.mem 42 = emptyHeap.mem 42
    ∧ (mthread.create_arg okPC emptyHeap 3 4 (some 5) (some sampleArgProc)
        (some 7)).1 = okPC 3 4 .func_args emptyHeap.next
    ∧ (mthread.create_arg okPC emptyHeap 3 4 (some 5) (some sampleArgProc)
        (some 7)).2.next = emptyHeap.next + 1
    ∧ (mthread.create_arg okPC emptyHeap 3 4 (some 5) (some sampleArgProc)
        (some 7)).2.WF := by
  have hwf : emptyHeap.WF := fun a _ => rfl
  have hc := C4_fresh_context_matching_trampoline okPC emptyHeap 3 4 (some 5)
    (some sampleNoArgProc) (some sampleArgProc) (some 7) hwf
  exact ⟨hwf, hc.1, hc.2.1, hc.2.2.1 42 (by decide), hc.2.2.2.1,
    hc.2.2.2.2.1, hc.2.2.2.2.2.1, hc.2.2.2.2.2.2.1,
    hc.2.2.2.2.2.2.2.1 42 (by decide), hc.2.2.2.2.2.2.2.2.1,
    hc.2.2.2.2.2.2.2.2.2.1, hc.2.2.2.2.2.2.2.2.2.2⟩

/-- Witness for C6: with a native primitive that always fails with status
11, both launches return 11 and their contexts stay live in the heap. -/
theorem C6_context_not_freed_on_failure_witness :
    againPC 3 4 .func_no_args emptyHeap.next = 11
    ∧ (11 : Int) ≠ 0
    ∧ againPC 3 4 .func_args emptyHeap.next = 11
    ∧ ((mthread.create_no_arg againPC emptyHeap 3 4 (some 5)
          (some sampleNoArgProc)).1 = 11
      ∧ (mthread.create_no_arg againPC emptyHeap 3 4 (some 5)
          (some sampleNoArgProc)).1 ≠ 0
      ∧ (mthread.create_no_arg againPC emptyHeap 3 4 (some 5)
          (some sampleNoArgProc)).2.mem emptyHeap.next
          = some (mthread.ctor_no_arg (some 5) (some sampleNoArgProc)))
    ∧ ((mthread.create_arg againPC emptyHeap 3 4 (some 5)
          (some sampleArgProc) (some 7)).1 = 11
      ∧ (mthread.create_arg againPC emptyHeap 3 4 (some 5)
          (some sampleArgProc) (some 7)).1 ≠ 0
      ∧ (mthread.create_arg againPC emptyHeap 3 4 (some 5)
          (some sampleArgProc) (some 7)).2.mem emptyHeap.next
          = some (mthread.ctor_arg (some 5) (some sampleArgProc) (some 7))) :=
  ⟨rfl, by decide, rfl,
    (C6_context_not_freed_on_failure againPC emptyHeap 3 4 (some 5)
      (some sampleNoArgProc) (some sampleArgProc) (some 7) 11 11 rfl
      (by decide) rfl (by decide)).1,
    (C6_context_not_freed_on_failure againPC emptyHeap 3 4 (some 5)
      (some sampleNoArgProc) (some sampleArgProc) (some 7) 11 11 rfl
      (by decide) rfl (by decide)).2⟩

/-- Witness for C7: destructor run on a concrete context, and deletion at
address 0 observed at the distinct address 1. -/
theorem C7_dtor_clears_references_only_witness :
    (1 : Nat) ≠ 0
    ∧ ((mthread.dtor
        (mthread.ctor_arg (some 5) (some sampleArgProc) (some 7))).mp_ref
        = none
      ∧ (mthread.dtor
        (mthread.ctor_arg (some 5) (some sampleArgProc) (some 7))).mp_arg
        = none
      ∧ (mthread.dtor
        (mthread.ctor_arg (some 5) (some sampleArgProc) (some 7))).mf_no_arg
        = (mthread.ctor_arg (some 5) (some sampleArgProc) (some 7)).mf_no_arg
      ∧ (mthread.dtor
        (mthread.ctor_arg (some 5) (some sampleArgProc) (some 7))).mf_arg
        = (mthread.ctor_arg (some 5) (some sampleArgProc) (some 7)).mf_arg
      ∧ (twoCtxHeap.deleteObj 0).mem 1 = twoCtxHeap.mem 1) :=
  ⟨by decide,
    C7_dtor_clears_references_only
      (mthread.ctor_arg (some 5) (some sampleArgProc) (some 7))
      twoCtxHeap 0 1 (by decide)⟩

/-- Witness for C8: fault propagation instantiated on `twoCtxHeap`, whose
stored procedures complete normally, with the fault-iff conjuncts taken at
the concrete fault `()` and the completion conjuncts discharged. -/
theorem C8_trampolines_propagate_faults_witness :
    twoCtxHeap.mem 0
      = some (mthread.ctor_arg (some 5) (some sampleArgProc) (some 7))
    ∧ (mthread.ctor_arg (some 5) (some sampleArgProc) (some 7)).mf_arg
      = some sampleArgProc
    ∧ twoCtxHeap.mem 1
      = some (mthread.ctor_no_arg (some 6) (some sampleNoArgProc))
    ∧ (mthread.ctor_no_arg (α := Nat) (some 6)
        (some sampleNoArgProc)).mf_no_arg = some sampleNoArgProc
    ∧ (mthread.func_args twoCtxHeap 0 0 = .error (.thrown ())
        ↔ sampleArgProc (some 5) (some 7) 0 = .error ())
    ∧ mthread.func_args twoCtxHeap 0 0 = .ok (twoCtxHeap.deleteObj 0, 2, none)
    ∧ (mthread.func_no_args twoCtxHeap 0 1 = .error (.thrown ())
        ↔ sampleNoArgProc (some 6) 0 = .error ())
    ∧ mthread.func_no_args twoCtxHeap 0 1
      = .ok (twoCtxHeap.deleteObj 1, 1, none) := by
  have hc := C8_trampolines_propagate_faults twoCtxHeap 0 1
    (mthread.ctor_arg (some 5) (some sampleArgProc) (some 7))
    (mthread.ctor_no_arg (some 6) (some sampleNoArgProc))
    sampleArgProc sampleNoArgProc 0 rfl rfl rfl rfl
  exact ⟨rfl, rfl, rfl, rfl, hc.1 (), hc.2.1 () 2 rfl, hc.2.2.1 (),
    hc.2.2.2 () 1 rfl⟩

end MThreadModel
